import Mathlib

/-!
Verification of the bridge-ws core against its specification

Shallow embedding of the bridge-ws WebSocket gateway:

* `src/server/protocol.ts` — frame validation (`parseClientMessage`),
* `src/server/cli.ts` (`AgentWebSocketServer.handlePrompt` / `handleCancel`) —
  the per-connection multiplexer,
* `src/process/base-cli-provider.ts` — the subprocess runner base,
* `src/process/claude-provider.ts` / `codex-provider.ts` — the projectId
  working-directory check,
* `src/process/ollama-provider.ts` — the HTTP streaming runner.

JavaScript strings are modelled as Lean `String` (sequences of Unicode scalar
values); `s.length` of JavaScript is modelled by `utf16Length` (UTF-16 code
units), `TextEncoder().encode(s).byteLength` by `String.utf8ByteSize`, and
`s.slice(0, n)` by `utf16Take` (the longest prefix of whole characters whose
UTF-16 length is at most `n`).
-/

/-- JSON values, as produced by a successful `JSON.parse`. -/
inductive Json where
  | null : Json
  | bool (b : Bool) : Json
  | num (n : Int) : Json
  | str (s : String) : Json
  | arr (elems : List Json) : Json
  | obj (fields : List (String × Json)) : Json

/-- Width of a character in UTF-16 code units. -/
def utf16Width (c : Char) : Nat :=
  if 0x10000 ≤ c.toNat then 2 else 1

/-- UTF-16 code-unit count of a character list. -/
def utf16LengthAux : List Char → Nat
  | [] => 0
  | c :: cs => utf16Width c + utf16LengthAux cs

/-- Models JavaScript `s.length` (UTF-16 code units). -/
def utf16Length (s : String) : Nat :=
  utf16LengthAux s.data

/-- Longest prefix of a character list whose UTF-16 length is at most `n`.
Models JavaScript `s.slice(0, n)` on strings of Unicode scalar values
(when `slice` would split a surrogate pair, the pair is dropped). -/
def utf16Take (n : Nat) : List Char → List Char
  | [] => []
  | c :: cs =>
    if utf16Width c ≤ n then c :: utf16Take (n - utf16Width c) cs else []

/-- Models JavaScript `s.slice(0, n)`. -/
def utf16TakeStr (n : Nat) (s : String) : String :=
  String.mk (utf16Take n s.data)

/-- Field lookup on a JSON object's binding list; a later binding for the same
key wins, as in `JSON.parse` for duplicate keys. -/
def jsLookup : List (String × Json) → String → Option Json
  | [], _ => none
  | (k, v) :: rest, key =>
    match jsLookup rest key with
    | some w => some w
    | none => if k = key then some v else none

/-- Models `typeof x === "string" ? x : undefined` on an optional JSON value
(`none` is JavaScript `undefined`). -/
def asString : Option Json → Option String
  | some (Json.str s) => some s
  | _ => none

/-- Models `typeof x === "object" && x !== null` (note: JavaScript arrays
satisfy this test). -/
def jsIsObject : Json → Bool
  | Json.obj _ => true
  | Json.arr _ => true
  | _ => false

/-- Models `x["key"]` for a non-numeric key: a lookup on objects, `undefined`
on arrays (for non-index keys) and on primitives. -/
def jsIndex : Json → String → Option Json
  | Json.obj fields, key => jsLookup fields key
  | _, _ => none

/-! Protocol constants (src/server/protocol.ts lines 1-16) -/

/-- Maximum prompt size: 512KB. -/
def MAX_PROMPT_BYTES : Nat := 512 * 1024

/-- Maximum system prompt size: 64KB. -/
def MAX_SYSTEM_PROMPT_BYTES : Nat := 64 * 1024

/-- Maximum images per message. -/
def MAX_IMAGES : Nat := 4

/-- Maximum single image size: 10MB base64. -/
def MAX_IMAGE_BASE64_BYTES : Nat := 10 * 1024 * 1024

/-- Allowed image MIME types. -/
def ALLOWED_IMAGE_TYPES : List String :=
  ["image/png", "image/jpeg", "image/gif", "image/webp"]

/-- Maximum projectId length. -/
def MAX_PROJECT_ID_LENGTH : Nat := 128

/-- A character of the projectId character class `[a-zA-Z0-9._-]`. -/
def isProjectIdChar (c : Char) : Bool :=
  c.isAlpha || c.isDigit || c = '.' || c = '_' || c = '-'

/-- Models `PROJECT_ID_PATTERN.test s` for `/^[a-zA-Z0-9._-]+$/`. -/
def PROJECT_ID_PATTERN_test (s : String) : Bool :=
  !s.isEmpty && s.data.all isProjectIdChar

/-! Protocol message types (src/server/protocol.ts lines 18-80) -/

/-- The provider tag of a validated prompt message. -/
inductive ProviderTag where
  | claude : ProviderTag
  | codex : ProviderTag
  | ollama : ProviderTag
deriving DecidableEq, Repr

/-- A validated image attachment. -/
structure PromptImage where
  media_type : String
  data : String
deriving DecidableEq, Repr

/-- A validated prompt message. -/
structure PromptMessage where
  prompt : String
  model : Option String
  systemPrompt : Option String
  projectId : Option String
  requestId : String
  provider : ProviderTag
  thinkingTokens : Option Int
  images : Option (List PromptImage)
deriving DecidableEq, Repr

/-- A validated client message. -/
inductive ClientMessage where
  | prompt (m : PromptMessage) : ClientMessage
  | cancel (requestId : String) : ClientMessage
deriving DecidableEq, Repr

/-- Parse result: `.ok message` or `.error errorString`. -/
abbrev ParseResult := Except String ClientMessage

/-! parseClientMessage (src/server/protocol.ts lines 82-197)

The embedding takes `Option Json` as input: `none` models a raw frame that
`JSON.parse` rejects, `some j` a frame that parses to the JSON value `j`.
The straight-line body with early returns is split into stage functions,
one per contiguous region of the source, in source order. -/

/-- The view of the prompt-relevant fields of the message object
(`obj["prompt"]`, `obj["requestId"]`, and the five optional reads at
src/server/protocol.ts lines 118-122 and 143). -/
structure PromptFieldsView where
  prompt : Option Json
  requestId : Option Json
  model : Option Json
  systemPrompt : Option Json
  projectId : Option Json
  provider : Option Json
  thinkingTokens : Option Json
  images : Option Json

/-- Read every prompt-relevant field of the object. -/
def readPromptFields (fields : List (String × Json)) : PromptFieldsView :=
  { prompt := jsLookup fields "prompt"
    requestId := jsLookup fields "requestId"
    model := jsLookup fields "model"
    systemPrompt := jsLookup fields "systemPrompt"
    projectId := jsLookup fields "projectId"
    provider := jsLookup fields "provider"
    thinkingTokens := jsLookup fields "thinkingTokens"
    images := jsLookup fields "images" }

/-- The per-image loop body (src/server/protocol.ts lines 149-164): shape
check, string-field check, media-type check, size check, in that order. -/
def parseImageList : List Json → Except String (List PromptImage)
  | [] => Except.ok []
  | img :: rest =>
    if !jsIsObject img then
      Except.error "Each image must be an object with media_type and data"
    else
      match asString (jsIndex img "media_type"), asString (jsIndex img "data") with
      | some mt, some d =>
        if !(ALLOWED_IMAGE_TYPES.contains mt) then
          Except.error ("Unsupported image type: " ++ utf16TakeStr 50 mt ++
            " (allowed: png, jpeg, gif, webp)")
        else if utf16Length d > MAX_IMAGE_BASE64_BYTES then
          Except.error ("Image exceeds maximum size of " ++
            toString MAX_IMAGE_BASE64_BYTES ++ " bytes")
        else
          match parseImageList rest with
          | Except.error e => Except.error e
          | Except.ok tail => Except.ok ({ media_type := mt, data := d } :: tail)
      | _, _ =>
        Except.error "Each image must have string media_type and data fields"

/-- The final success value (src/server/protocol.ts lines 167-180), including
the provider coercion `provider === "codex" ? "codex" : provider === "ollama"
? "ollama" : "claude"` and the thinkingTokens guard. -/
def promptResult (v : PromptFieldsView) (prompt requestId : String)
    (parsedImages : Option (List PromptImage)) : ParseResult :=
  Except.ok (ClientMessage.prompt
    { prompt := prompt
      model := asString v.model
      systemPrompt := asString v.systemPrompt
      projectId := asString v.projectId
      requestId := requestId
      provider :=
        if asString v.provider = some "codex" then ProviderTag.codex
        else if asString v.provider = some "ollama" then ProviderTag.ollama
        else ProviderTag.claude
      thinkingTokens :=
        match v.thinkingTokens with
        | some (Json.num n) => if n ≥ 0 then some n else none
        | _ => none
      images := parsedImages })

/-- Images stage (src/server/protocol.ts lines 141-165): a non-empty array is
validated (count, then each element in order); anything else leaves
`parsedImages` undefined. -/
def promptImagesStage (v : PromptFieldsView) (prompt requestId : String) :
    ParseResult :=
  match v.images with
  | some (Json.arr imgs) =>
    if imgs.length > 0 then
      if imgs.length > MAX_IMAGES then
        Except.error ("Too many images (max " ++ toString MAX_IMAGES ++ ")")
      else
        match parseImageList imgs with
        | Except.error e => Except.error e
        | Except.ok l => promptResult v prompt requestId (some l)
    else promptResult v prompt requestId none
  | _ => promptResult v prompt requestId none

/-- Provider stage (src/server/protocol.ts lines 137-139): a string provider
must be one of the three known tags; a non-string provider is not checked. -/
def promptProviderStage (v : PromptFieldsView) (prompt requestId : String) :
    ParseResult :=
  match asString v.provider with
  | some pv =>
    if pv ≠ "claude" ∧ pv ≠ "codex" ∧ pv ≠ "ollama" then
      Except.error ("Unknown provider: \"" ++ pv ++
        "\" (supported: claude, codex, ollama)")
    else promptImagesStage v prompt requestId
  | none => promptImagesStage v prompt requestId

/-- projectId stage (src/server/protocol.ts lines 128-135): a string projectId
is length-checked, then pattern-checked; a non-string projectId is skipped. -/
def promptProjectStage (v : PromptFieldsView) (prompt requestId : String) :
    ParseResult :=
  match asString v.projectId with
  | some pid =>
    if utf16Length pid > MAX_PROJECT_ID_LENGTH then
      Except.error ("projectId exceeds maximum length of " ++
        toString MAX_PROJECT_ID_LENGTH)
    else if !PROJECT_ID_PATTERN_test pid then
      Except.error
        "projectId contains invalid characters (allowed: alphanumeric, hyphens, underscores, dots)"
    else promptProviderStage v prompt requestId
  | none => promptProviderStage v prompt requestId

/-- Models `typeof systemPrompt === "string" && byteLength(systemPrompt) > max`
(src/server/protocol.ts line 124). -/
def systemPromptOver (j : Option Json) : Bool :=
  match asString j with
  | some sp => decide (sp.utf8ByteSize > MAX_SYSTEM_PROMPT_BYTES)
  | none => false

/-- systemPrompt stage (src/server/protocol.ts lines 124-126): a string
systemPrompt over 64 KiB of UTF-8 is rejected. -/
def promptSystemStage (v : PromptFieldsView) (prompt requestId : String) :
    ParseResult :=
  if systemPromptOver v.systemPrompt then
    Except.error ("System prompt exceeds maximum size of " ++
      toString MAX_SYSTEM_PROMPT_BYTES ++ " bytes")
  else promptProjectStage v prompt requestId

/-- The `case "prompt"` branch (src/server/protocol.ts lines 103-181) as a
function of the field view: prompt present and non-empty, prompt size,
requestId present and non-empty, then the optional-field stages. -/
def parsePromptView (v : PromptFieldsView) : ParseResult :=
  match asString v.prompt with
  | none => Except.error "Missing or empty 'prompt' field"
  | some prompt =>
    if prompt.isEmpty then Except.error "Missing or empty 'prompt' field"
    else if prompt.utf8ByteSize > MAX_PROMPT_BYTES then
      Except.error ("Prompt exceeds maximum size of " ++
        toString MAX_PROMPT_BYTES ++ " bytes")
    else
      match asString v.requestId with
      | none => Except.error "Missing or empty 'requestId' field"
      | some requestId =>
        if requestId.isEmpty then
          Except.error "Missing or empty 'requestId' field"
        else promptSystemStage v prompt requestId

/-- The `case "prompt"` branch on the message object's fields. -/
def parsePromptFields (fields : List (String × Json)) : ParseResult :=
  parsePromptView (readPromptFields fields)

/-- The `case "cancel"` branch (src/server/protocol.ts lines 183-192). -/
def parseCancelFields (fields : List (String × Json)) : ParseResult :=
  match asString (jsLookup fields "requestId") with
  | none => Except.error "Missing or empty 'requestId' field in cancel message"
  | some requestId =>
    if requestId.isEmpty then
      Except.error "Missing or empty 'requestId' field in cancel message"
    else Except.ok (ClientMessage.cancel requestId)

/-- Embedding of `parseClientMessage` (src/server/protocol.ts lines 82-197). The argument
is `none` when `JSON.parse` throws, otherwise the parsed JSON value. -/
def parseClientMessage : Option Json → ParseResult
  | none => Except.error "Invalid JSON"
  | some data =>
    match data with
    | Json.obj fields =>
      match asString (jsLookup fields "type") with
      | none => Except.error "Missing or invalid 'type' field"
      | some t =>
        if t = "prompt" then parsePromptFields fields
        else if t = "cancel" then parseCancelFields fields
        else Except.error ("Unknown message type: " ++ utf16TakeStr 50 t)
    | _ => Except.error "Message must be a JSON object"

/-! Specification-side validator (for claim C1)

`specParseError` is written from the specification's words (spec.md §4.1):
an explicit ordered list of checks, where the result is the first failing
check's message. It is compared with the error behaviour of the
source-derived `parseClientMessage`. -/

/-- First error in an ordered list of check outcomes. -/
def firstSome : List (Option String) → Option String
  | [] => none
  | some e :: _ => some e
  | none :: rest => firstSome rest

/-- Spec order of the per-image checks: object shape, string fields,
media type in the allowed set, data length. -/
def specImageChecks (img : Json) : List (Option String) :=
  [ if jsIsObject img then none
    else some "Each image must be an object with media_type and data",
    (match asString (jsIndex img "media_type"), asString (jsIndex img "data") with
     | some _, some _ => none
     | _, _ => some "Each image must have string media_type and data fields"),
    (match asString (jsIndex img "media_type") with
     | some mt =>
       if ALLOWED_IMAGE_TYPES.contains mt then none
       else some ("Unsupported image type: " ++ utf16TakeStr 50 mt ++
         " (allowed: png, jpeg, gif, webp)")
     | none => none),
    (match asString (jsIndex img "data") with
     | some d =>
       if utf16Length d > MAX_IMAGE_BASE64_BYTES then
         some ("Image exceeds maximum size of " ++
           toString MAX_IMAGE_BASE64_BYTES ++ " bytes")
       else none
     | none => none) ]

/-- First failing image, first failing check of that image. -/
def specImageListError : List Json → Option String
  | [] => none
  | img :: rest =>
    match firstSome (specImageChecks img) with
    | some e => some e
    | none => specImageListError rest

/-- Spec check (g): if `images` is a non-empty array, count first, then the
per-image checks in order. -/
def specImagesError (images : Option Json) : Option String :=
  match images with
  | some (Json.arr imgs) =>
    if imgs.length = 0 then none
    else if imgs.length > MAX_IMAGES then
      some ("Too many images (max " ++ toString MAX_IMAGES ++ ")")
    else specImageListError imgs
  | _ => none

/-- Spec check (a): non-empty `prompt`. -/
def specPromptPresenceCheck (v : PromptFieldsView) : Option String :=
  match asString v.prompt with
  | some p => if p.isEmpty then some "Missing or empty 'prompt' field" else none
  | none => some "Missing or empty 'prompt' field"

/-- Spec check (b): prompt byte length at most 512 KiB of UTF-8. -/
def specPromptSizeCheck (v : PromptFieldsView) : Option String :=
  match asString v.prompt with
  | some p =>
    if p.utf8ByteSize > MAX_PROMPT_BYTES then
      some ("Prompt exceeds maximum size of " ++
        toString MAX_PROMPT_BYTES ++ " bytes")
    else none
  | none => none

/-- Spec check (c): non-empty `requestId`. -/
def specRequestIdCheck (v : PromptFieldsView) : Option String :=
  match asString v.requestId with
  | some r => if r.isEmpty then some "Missing or empty 'requestId' field" else none
  | none => some "Missing or empty 'requestId' field"

/-- Spec check (d): a string systemPrompt is at most 64 KiB of UTF-8. -/
def specSystemPromptCheck (v : PromptFieldsView) : Option String :=
  if systemPromptOver v.systemPrompt then
    some ("System prompt exceeds maximum size of " ++
      toString MAX_SYSTEM_PROMPT_BYTES ++ " bytes")
  else none

/-- Spec check (e), first half: a string projectId has length at most 128. -/
def specProjectIdLenCheck (v : PromptFieldsView) : Option String :=
  match asString v.projectId with
  | some pid =>
    if utf16Length pid > MAX_PROJECT_ID_LENGTH then
      some ("projectId exceeds maximum length of " ++
        toString MAX_PROJECT_ID_LENGTH)
    else none
  | none => none

/-- Spec check (e), second half: the pattern match, after the length check. -/
def specProjectIdPatCheck (v : PromptFieldsView) : Option String :=
  match asString v.projectId with
  | some pid =>
    if utf16Length pid > MAX_PROJECT_ID_LENGTH then none
    else if !PROJECT_ID_PATTERN_test pid then
      some "projectId contains invalid characters (allowed: alphanumeric, hyphens, underscores, dots)"
    else none
  | none => none

/-- Spec check (f): a string provider must be one of the three known tags. -/
def specProviderCheck (v : PromptFieldsView) : Option String :=
  match asString v.provider with
  | some pv =>
    if pv ≠ "claude" ∧ pv ≠ "codex" ∧ pv ≠ "ollama" then
      some ("Unknown provider: \"" ++ pv ++
        "\" (supported: claude, codex, ollama)")
    else none
  | none => none

/-- The spec's ordered prompt checks (a)-(g). -/
def specPromptChecks (v : PromptFieldsView) : List (Option String) :=
  [ specPromptPresenceCheck v,
    specPromptSizeCheck v,
    specRequestIdCheck v,
    specSystemPromptCheck v,
    specProjectIdLenCheck v,
    specProjectIdPatCheck v,
    specProviderCheck v,
    specImagesError v.images ]

/-- Cancel checks per the spec. -/
def specCancelError (fields : List (String × Json)) : Option String :=
  match asString (jsLookup fields "requestId") with
  | some r =>
    if r.isEmpty then some "Missing or empty 'requestId' field in cancel message"
    else none
  | none => some "Missing or empty 'requestId' field in cancel message"

/-- The spec's validation order: JSON, object shape, `type`, then dispatch. -/
def specParseError : Option Json → Option String
  | none => some "Invalid JSON"
  | some (Json.obj fields) =>
    (match asString (jsLookup fields "type") with
     | none => some "Missing or invalid 'type' field"
     | some t =>
       if t = "prompt" then firstSome (specPromptChecks (readPromptFields fields))
       else if t = "cancel" then specCancelError fields
       else some ("Unknown message type: " ++ utf16TakeStr 50 t))
  | some _ => some "Message must be a JSON object"

/-- Error projection of a parse result. -/
def exceptError {α : Type} : Except String α → Option String
  | Except.error e => some e
  | Except.ok _ => none

/-! Connection state and multiplexer (src/server/cli.ts lines 158-170,
351-438)

`handlePrompt` and `handleCancel` are embedded as pure functions from the
per-connection state to a new state plus the list of primitive effects they
perform, in source order. Runners are identified by numeric handles; a fresh
handle is drawn from a counter in the state (a modelling artifact standing
for object identity). -/

/-- An outbound frame (src/server/protocol.ts lines 44-74). -/
inductive AgentMessage where
  | connected (version agent : String) : AgentMessage
  | chunk (content requestId : String) (thinking : Bool) : AgentMessage
  | complete (requestId : String) : AgentMessage
  | error (message : String) (requestId : Option String) : AgentMessage
deriving DecidableEq, Repr

/-- A primitive effect of a message handler, in execution order. -/
inductive ServerAction where
  | send (m : AgentMessage) : ServerAction
  | createRunner (p : ProviderTag) (r : Nat) : ServerAction
  | insertRequest (id : String) (r : Nat) : ServerAction
  | runnerRun (r : Nat) (id : String) : ServerAction
  | runnerKill (r : Nat) : ServerAction
  | deleteRequest (id : String) : ServerAction
deriving DecidableEq, Repr

/-- Is the action an operation on a runner (create, run, kill)? -/
def ServerAction.touchesRunner : ServerAction → Bool
  | ServerAction.createRunner _ _ => true
  | ServerAction.runnerRun _ _ => true
  | ServerAction.runnerKill _ => true
  | _ => false

/-- Per-connection state (src/server/cli.ts lines 163-170): the request map
(`Map<string, ActiveRequest>`, modelled as an association list with unique
keys), the per-provider runner cache, and the fresh-handle counter. -/
structure ConnectionState where
  requests : List (String × Nat)
  claudeRunner : Option Nat
  codexRunner : Option Nat
  ollamaRunner : Option Nat
  nextRunnerId : Nat
deriving DecidableEq, Repr

/-- Models `state.requests.has(id)`. -/
def requestsHas (reqs : List (String × Nat)) (id : String) : Bool :=
  reqs.any (fun e => e.1 = id)

/-- Models `state.requests.get(id)`. -/
def requestsGet : List (String × Nat) → String → Option Nat
  | [], _ => none
  | (k, r) :: rest, id => if k = id then some r else requestsGet rest id

/-- Models `state.requests.delete(id)`. -/
def requestsDelete (reqs : List (String × Nat)) (id : String) :
    List (String × Nat) :=
  reqs.filter (fun e => e.1 ≠ id)

/-- The lazy-create-and-cache runner selection (src/server/cli.ts lines
363-381): returns the updated state, the runner used, and the creation
effects (empty when the cached runner is reused). -/
def getProviderRunner (s : ConnectionState) (p : ProviderTag) :
    ConnectionState × Nat × List ServerAction :=
  match p with
  | ProviderTag.codex =>
    match s.codexRunner with
    | some r => (s, r, [])
    | none =>
      ({ s with codexRunner := some s.nextRunnerId,
                nextRunnerId := s.nextRunnerId + 1 },
       s.nextRunnerId, [ServerAction.createRunner ProviderTag.codex s.nextRunnerId])
  | ProviderTag.ollama =>
    match s.ollamaRunner with
    | some r => (s, r, [])
    | none =>
      ({ s with ollamaRunner := some s.nextRunnerId,
                nextRunnerId := s.nextRunnerId + 1 },
       s.nextRunnerId, [ServerAction.createRunner ProviderTag.ollama s.nextRunnerId])
  | ProviderTag.claude =>
    match s.claudeRunner with
    | some r => (s, r, [])
    | none =>
      ({ s with claudeRunner := some s.nextRunnerId,
                nextRunnerId := s.nextRunnerId + 1 },
       s.nextRunnerId, [ServerAction.createRunner ProviderTag.claude s.nextRunnerId])

/-- Embedding of `AgentWebSocketServer.handlePrompt` (src/server/cli.ts lines 351-423):
duplicate-id check, runner selection, request-map insert, then `runner.run`. -/
def handlePrompt (s : ConnectionState) (m : PromptMessage) :
    ConnectionState × List ServerAction :=
  if requestsHas s.requests m.requestId then
    (s, [ServerAction.send (AgentMessage.error
          ("Request " ++ m.requestId ++ " is already in progress")
          (some m.requestId))])
  else
    match getProviderRunner s m.provider with
    | (s1, runner, createActs) =>
      ({ s1 with requests := s1.requests ++ [(m.requestId, runner)] },
       createActs ++ [ServerAction.insertRequest m.requestId runner,
                      ServerAction.runnerRun runner m.requestId])

/-- Embedding of `AgentWebSocketServer.handleCancel` (src/server/cli.ts lines 425-438):
unknown id → error frame only; known id → kill, delete, error frame. -/
def handleCancel (s : ConnectionState) (requestId : String) :
    ConnectionState × List ServerAction :=
  match requestsGet s.requests requestId with
  | none =>
    (s, [ServerAction.send (AgentMessage.error
          ("No active request with id: " ++ requestId) (some requestId))])
  | some runner =>
    ({ s with requests := requestsDelete s.requests requestId },
     [ServerAction.runnerKill runner,
      ServerAction.deleteRequest requestId,
      ServerAction.send (AgentMessage.error "Request cancelled" (some requestId))])

/-- Keys of the request map are pairwise distinct (the `Map` invariant). -/
def requestsNodup (reqs : List (String × Nat)) : Prop :=
  (reqs.map Prod.fst).Nodup

/-! Subprocess runner base (src/process/base-cli-provider.ts)

The instance fields (`disposed`, `killed`, `process`, `timeout`) are shared
across executions, while `handlersDone` and `requestId` live in the closures
of a single `run` call. Each `run` invocation is given a fresh execution
index (a modelling artifact standing for the closure identity); the
asynchronous child-process events carry the index of the execution whose
child or timer fired. Handler invocations are emitted as
(execution index, call) pairs so that calls can be attributed to the `run`
invocation whose handlers received them. -/

/-- A handler invocation (`RunHandlers`, src/process/base-cli-provider.ts
lines 16-20). -/
inductive HandlerCall where
  | onChunk (content requestId : String) (thinking : Bool) : HandlerCall
  | onComplete (requestId : String) : HandlerCall
  | onError (message requestId : String) : HandlerCall
deriving DecidableEq, Repr

/-- Is the call a terminal event (`onComplete` or `onError`)? -/
def HandlerCall.isTerminal : HandlerCall → Bool
  | HandlerCall.onComplete _ => true
  | HandlerCall.onError _ _ => true
  | HandlerCall.onChunk _ _ _ => false

/-- The mutable state of a `BaseCliProvider` instance, plus per-execution
bookkeeping. `current` is `this.process` (the execution index whose child
handle is held), `timeoutOf` is `this.timeout` (the execution whose timer is
armed), `doneOf` is each execution's `handlersDone` closure variable and
`reqOf` its `requestId`. -/
structure RunnerState where
  disposed : Bool
  killed : Bool
  current : Option Nat
  timeoutOf : Option Nat
  nextEx : Nat
  doneOf : Nat → Bool
  reqOf : Nat → String

/-- The state before any `run` call. -/
def initialRunnerState : RunnerState :=
  { disposed := false, killed := false, current := none, timeoutOf := none,
    nextEx := 0, doneOf := fun _ => false, reqOf := fun _ => "" }

/-- An event delivered to the instance: the synchronous public calls, and the
asynchronous child-process events of execution `ex`. -/
inductive RunnerEvent where
  | runCall (requestId : String) : RunnerEvent
  | killCall : RunnerEvent
  | disposeCall : RunnerEvent
  | procExit (ex : Nat) (exitCode : Option Int) (signal : Option String) : RunnerEvent
  | procError (ex : Nat) (message : String) : RunnerEvent
  | stdoutLine (ex : Nat) (content : String) (thinking : Bool) : RunnerEvent
  | timeoutFire (ex : Nat) : RunnerEvent
deriving DecidableEq, Repr

/-- Embedding of `kill()` (src/process/base-cli-provider.ts lines 136-148): clear the
timeout; if a child is held, set `killed`, signal it, forget the handle. -/
def runnerKillFn (s : RunnerState) : RunnerState :=
  let s1 := { s with timeoutOf := none }
  match s1.current with
  | some _ => { s1 with killed := true, current := none }
  | none => s1

/-- The one-shot `finish` closure of execution `ex`
(src/process/base-cli-provider.ts lines 75-81): if `handlersDone` is unset,
set it, clear the instance timeout, and invoke the callback. -/
def runnerFinish (s : RunnerState) (ex : Nat) (c : HandlerCall) :
    RunnerState × List (Nat × HandlerCall) :=
  if s.doneOf ex then (s, [])
  else
    ({ s with doneOf := fun e => if e = ex then true else s.doneOf e,
              timeoutOf := none },
     [(ex, c)])

/-- The exit reason string (src/process/base-cli-provider.ts lines 120-122). -/
def exitReason (exitCode : Option Int) (signal : Option String) : String :=
  match exitCode with
  | some n => "CLI exited with code " ++ toString n
  | none =>
    "CLI killed by signal " ++ (match signal with | some sg => sg | none => "unknown")

/-- One event step of a `BaseCliProvider` instance
(src/process/base-cli-provider.ts lines 58-153). -/
def runnerStep (s : RunnerState) :
    RunnerEvent → RunnerState × List (Nat × HandlerCall)
  | RunnerEvent.runCall rid =>
    -- run(): disposed short-circuit; else kill prior, reset killed,
    -- spawn (always succeeds in this model), arm the timeout.
    if s.disposed then
      ({ s with nextEx := s.nextEx + 1,
                reqOf := fun e => if e = s.nextEx then rid else s.reqOf e },
       [(s.nextEx, HandlerCall.onError "Runner has been disposed" rid)])
    else
      let s1 := runnerKillFn s
      let s2 := { s1 with killed := false }
      ({ s2 with nextEx := s2.nextEx + 1,
                 reqOf := fun e => if e = s2.nextEx then rid else s2.reqOf e,
                 current := some s2.nextEx,
                 timeoutOf := some s2.nextEx },
       [])
  | RunnerEvent.killCall => (runnerKillFn s, [])
  | RunnerEvent.disposeCall => (runnerKillFn { s with disposed := true }, [])
  | RunnerEvent.procExit ex exitCode signal =>
    -- the `exit` listener of execution ex (lines 107-126):
    -- `this.process = null` unconditionally, then the killed guard,
    -- then exit reconciliation through `finish`.
    let s1 := { s with current := none }
    if s1.killed then (s1, [])
    else if exitCode = some 0 then
      runnerFinish s1 ex (HandlerCall.onComplete (s1.reqOf ex))
    else
      runnerFinish s1 ex (HandlerCall.onError (exitReason exitCode signal) (s1.reqOf ex))
  | RunnerEvent.procError ex message =>
    -- the `error` listener of execution ex (lines 128-133): no killed guard.
    let s1 := { s with current := none }
    runnerFinish s1 ex (HandlerCall.onError message (s1.reqOf ex))
  | RunnerEvent.stdoutLine ex content thinking =>
    -- a readline `line` event of execution ex (lines 90-95) whose
    -- parseStreamLine emits a chunk: no guard of any kind.
    (s, [(ex, HandlerCall.onChunk content (s.reqOf ex) thinking)])
  | RunnerEvent.timeoutFire ex =>
    -- the timer armed at lines 83-87; it can only fire while still armed.
    if s.timeoutOf = some ex then
      let s1 := runnerKillFn s
      runnerFinish s1 ex (HandlerCall.onError "Process timed out" (s1.reqOf ex))
    else (s, [])

/-- Run a sequence of events, accumulating the emitted handler calls. -/
def runnerTrace (s : RunnerState) :
    List RunnerEvent → RunnerState × List (Nat × HandlerCall)
  | [] => (s, [])
  | e :: rest =>
    match runnerStep s e with
    | (s1, calls) =>
      match runnerTrace s1 rest with
      | (s2, calls2) => (s2, calls ++ calls2)

/-- Count the terminal calls attributed to execution `ex` in a call list. -/
def terminalCount (ex : Nat) (calls : List (Nat × HandlerCall)) : Nat :=
  (calls.filter (fun c => c.1 = ex ∧ c.2.isTerminal)).length

/-- Does the event list contain a `run` invocation? -/
def hasRunCall (events : List RunnerEvent) : Bool :=
  events.any (fun e => match e with | RunnerEvent.runCall _ => true | _ => false)

/-! projectId working-directory scoping (src/process/claude-provider.ts
lines 66-75 and src/process/codex-provider.ts lines 69-79; the two code
regions are identical and are embedded once)

`resolve(tmpdir(), sessionDir)` is fixed to its value under the default
configuration (`sessionDir = "bridge-ws-sessions"`, `tmpdir() = "/tmp"`);
`resolveChild` models Node's `path.resolve(base, seg)` for an absolute,
slash-free-segment call, which is the only shape that occurs: `base` has no
trailing slash and a pattern-valid `projectId` contains no slash. -/

/-- The session base `resolve(tmpdir(), this.sessionDir)` under defaults. -/
def sessionBase : String := "/tmp/bridge-ws-sessions"

/-- Parent directory of an absolute path without trailing slash
(`path.resolve(p, "..")`): drop the last `/`-separated component. -/
def parentPath (p : String) : String :=
  let parent := ((p.data.reverse.dropWhile (fun c => ¬c = '/')).drop 1).reverse
  if parent.isEmpty then "/" else String.mk parent

/-- Models `path.resolve(base, seg)` for an absolute `base` (no trailing slash) and
a single slash-free segment `seg`. -/
def resolveChild (base seg : String) : String :=
  if seg = "." then base
  else if seg = ".." then parentPath base
  else base ++ "/" ++ seg

/-- JavaScript `s.startsWith(pre)`. -/
def jsStartsWith (s pre : String) : Bool :=
  pre.data.isPrefixOf s.data

/-- The working-directory computation and containment check shared by
`ClaudeProvider.spawnProcess` and `CodexProvider.spawnProcess`:
`cwd = resolve(base, projectId)`; if
`!cwd.startsWith(base + "/") && cwd !== base` the provider emits
`onError("Invalid projectId", requestId)` and spawns nothing (`none`);
otherwise it spawns with the returned `cwd` (`some cwd`). -/
def providerCwdCheck (base projectId : String) : Option String :=
  let cwd := resolveChild base projectId
  if !jsStartsWith cwd (base ++ "/") ∧ cwd ≠ base then none
  else some cwd

/-- A projectId accepted by the protocol validator: length at most 128 and
the full-string pattern `[A-Za-z0-9._-]+` (which forces non-emptiness). -/
def acceptedProjectId (pid : String) : Bool :=
  decide (utf16Length pid ≤ MAX_PROJECT_ID_LENGTH) && PROJECT_ID_PATTERN_test pid

/-- Strict containment: the resolved directory lies strictly within the base,
extending it by at least one separator. -/
def strictlyWithin (cwd base : String) : Bool :=
  jsStartsWith cwd (base ++ "/")

/-! Ollama provider (src/process/ollama-provider.ts)

The HTTP exchange is abstracted to a `FetchOutcome`: either the `fetch`
promise rejected (with the rejection's `Error` message, or `none` for a
non-`Error` rejection), or a response arrived with a status, an error-body
text, and — for a streaming body — the newline-split lines the read loop
processed. `aborted` is the state of the abort signal when the read loop
ended (lines delivered after an abort are never processed, so they are not
part of the list). Handler calls carry the raw JSON values the code passes
(`event.response`, `event.error`), and the execution stops at the first
terminal exactly as the early returns do. -/

/-- A line presented to the stream loop: blank (`!line.trim()`), non-JSON
(`JSON.parse` throws), or a parsed JSON value. -/
inductive StreamLine where
  | blank : StreamLine
  | nonJson : StreamLine
  | json (j : Json) : StreamLine

/-- JavaScript truthiness of a JSON value. -/
def jsTruthy : Json → Bool
  | Json.null => false
  | Json.bool b => b
  | Json.num n => decide (n ≠ 0)
  | Json.str s => !s.isEmpty
  | Json.arr _ => true
  | Json.obj _ => true

/-- Truthiness of a possibly-undefined value (`undefined` is falsy). -/
def optTruthy : Option Json → Bool
  | some v => jsTruthy v
  | none => false

/-- The value of a field asserted present (`event.error!`). -/
def optValue (o : Option Json) : Json :=
  o.getD Json.null

/-- A handler invocation of the Ollama runner; chunk and error payloads are
the raw JSON field values the code passes through. -/
inductive OllamaCall where
  | chunk (content : Json) (requestId : String) : OllamaCall
  | complete (requestId : String) : OllamaCall
  | error (message : Json) (requestId : String) : OllamaCall

/-- The read loop (src/process/ollama-provider.ts lines 123-164): per line,
truthy `error` → onError and stop; truthy `response` → onChunk; truthy
`done` → onComplete and stop; blank and non-JSON lines are skipped; at end
of stream, onComplete unless the signal was aborted. -/
def ollamaProcessLines (requestId : String) :
    List StreamLine → Bool → List OllamaCall
  | [], aborted => if aborted then [] else [OllamaCall.complete requestId]
  | StreamLine.blank :: rest, aborted => ollamaProcessLines requestId rest aborted
  | StreamLine.nonJson :: rest, aborted => ollamaProcessLines requestId rest aborted
  | StreamLine.json j :: rest, aborted =>
    if optTruthy (jsIndex j "error") then
      [OllamaCall.error (optValue (jsIndex j "error")) requestId]
    else
      (if optTruthy (jsIndex j "response") then
        [OllamaCall.chunk (optValue (jsIndex j "response")) requestId]
       else []) ++
      (if optTruthy (jsIndex j "done") then [OllamaCall.complete requestId]
       else ollamaProcessLines requestId rest aborted)

/-- JavaScript `s.includes(sub)`. -/
def jsIncludes (s sub : String) : Bool :=
  decide (sub.data <:+: s.data)

/-- The connection-failure message (src/process/ollama-provider.ts lines
94-100): ECONNREFUSED gets the friendly message, another `Error` keeps its
message, a non-`Error` rejection gets the generic message. -/
def connectFailureMessage (baseUrl : String) (errMessage : Option String) : String :=
  match errMessage with
  | some m =>
    if jsIncludes m "ECONNREFUSED" then
      "Ollama server not reachable at " ++ baseUrl ++ ". Is Ollama running?"
    else m
  | none => "Failed to connect to Ollama"

/-- The HTTP-error message (src/process/ollama-provider.ts lines 103-106). -/
def httpErrorMessage (status : Nat) (bodyText : String) : String :=
  "Ollama returned HTTP " ++ toString status ++ ": " ++ utf16TakeStr 200 bodyText

/-- Models `Response.ok`: status in the 200-299 range. -/
def responseOk (status : Nat) : Bool :=
  decide (200 ≤ status) && decide (status < 300)

/-- The abstract outcome of the `fetch` call. -/
inductive FetchOutcome where
  | netError (errMessage : Option String) : FetchOutcome
  | httpResponse (status : Nat) (bodyText : String)
      (body : Option (List StreamLine)) : FetchOutcome

/-- Embedding of `fetchStream` (src/process/ollama-provider.ts lines 79-168): a rejected
fetch is suppressed when aborted, else rethrown with the translated message;
an HTTP error status or a missing body throws; otherwise the read loop runs. -/
def ollamaFetchStream (baseUrl requestId : String) (outcome : FetchOutcome)
    (aborted : Bool) : Except String (List OllamaCall) :=
  match outcome with
  | FetchOutcome.netError errMessage =>
    if aborted then Except.ok []
    else Except.error (connectFailureMessage baseUrl errMessage)
  | FetchOutcome.httpResponse status bodyText body =>
    if !responseOk status then Except.error (httpErrorMessage status bodyText)
    else
      match body with
      | none => Except.error "Ollama response has no body"
      | some lines => Except.ok (ollamaProcessLines requestId lines aborted)

/-- The `OllamaProvider` instance state relevant to `run`. -/
structure OllamaState where
  disposed : Bool
deriving DecidableEq, Repr

/-- Embedding of `OllamaProvider.run` (src/process/ollama-provider.ts lines 33-77): the
disposed short-circuit, then the fetch; a rejection of `fetchStream` is
suppressed when aborted, else surfaced as one `onError`. The second
component records whether a fetch was issued. -/
def ollamaRunModel (s : OllamaState) (baseUrl requestId : String)
    (outcome : FetchOutcome) (aborted : Bool) : List OllamaCall × Bool :=
  if s.disposed then
    ([OllamaCall.error (Json.str "Runner has been disposed") requestId], false)
  else
    (match ollamaFetchStream baseUrl requestId outcome aborted with
     | Except.ok calls => calls
     | Except.error m =>
       if aborted then [] else [OllamaCall.error (Json.str m) requestId],
     true)

/-! Specification-side stream interpreter (for claim C7)

Written from the per-line interpretation rules: each line yields the calls
it emits and whether processing stops there; the stream-end rule applies
when no line stopped processing. -/

/-- The calls a single parsed JSON line emits and whether it stops the
stream: a truthy `error` emits onError and stops; otherwise a truthy
`response` emits onChunk, and a truthy `done` emits onComplete and stops. -/
def specOllamaLineEffect (requestId : String) (j : Json) :
    List OllamaCall × Bool :=
  if optTruthy (jsIndex j "error") then
    ([OllamaCall.error (optValue (jsIndex j "error")) requestId], true)
  else
    ((if optTruthy (jsIndex j "response") then
        [OllamaCall.chunk (optValue (jsIndex j "response")) requestId]
      else []) ++
     (if optTruthy (jsIndex j "done") then [OllamaCall.complete requestId]
      else []),
     optTruthy (jsIndex j "done"))

/-- Interpretation of the whole stream: lines in order, blank and non-JSON
lines skipped, stop at the first stopping line; if no line stopped, emit
onComplete unless aborted. -/
def specOllamaStream (requestId : String) :
    List StreamLine → Bool → List OllamaCall
  | [], aborted => if aborted then [] else [OllamaCall.complete requestId]
  | StreamLine.blank :: rest, aborted => specOllamaStream requestId rest aborted
  | StreamLine.nonJson :: rest, aborted => specOllamaStream requestId rest aborted
  | StreamLine.json j :: rest, aborted =>
    match specOllamaLineEffect requestId j with
    | (calls, true) => calls
    | (calls, false) => calls ++ specOllamaStream requestId rest aborted

/-- The provider coercion of the success value
(src/server/protocol.ts line 176). -/
def providerCoercion (provider : Option Json) : ProviderTag :=
  if asString provider = some "codex" then ProviderTag.codex
  else if asString provider = some "ollama" then ProviderTag.ollama
  else ProviderTag.claude

/-- The per-provider cache slot of the connection. -/
def cachedRunner (s : ConnectionState) : ProviderTag → Option Nat
  | ProviderTag.claude => s.claudeRunner
  | ProviderTag.codex => s.codexRunner
  | ProviderTag.ollama => s.ollamaRunner

theorem parseImageList_error_eq (l : List Json) :
    exceptError (parseImageList l) = specImageListError l := by
  induction l with
  | nil => rfl
  | cons img rest ih =>
    rw [parseImageList, specImageListError, specImageChecks]
    cases himg : jsIsObject img with
    | false => simp [firstSome, exceptError]
    | true =>
      cases hmt : asString (jsIndex img "media_type") with
      | none =>
        cases hd : asString (jsIndex img "data") <;>
          simp [firstSome, exceptError]
      | some mt =>
        cases hd : asString (jsIndex img "data") with
        | none => simp [firstSome, exceptError]
        | some d =>
          by_cases hc : mt ∈ ALLOWED_IMAGE_TYPES
          · by_cases hsz : utf16Length d > MAX_IMAGE_BASE64_BYTES
            · simp [firstSome, exceptError, hc, hsz]
            · cases hrec : parseImageList rest with
              | error e =>
                rw [hrec] at ih
                simpa [exceptError, hc, hsz, firstSome, hrec] using ih
              | ok tail =>
                rw [hrec] at ih
                simpa [exceptError, hc, hsz, firstSome, hrec] using ih
          · simp [firstSome, exceptError, hc]

theorem firstSome_cons_some (e : String) (rest : List (Option String)) :
    firstSome (some e :: rest) = some e := rfl

theorem firstSome_cons_none (rest : List (Option String)) :
    firstSome (none :: rest) = firstSome rest := rfl

theorem firstSome_single (o : Option String) : firstSome [o] = o := by
  cases o <;> rfl

theorem promptImagesStage_error_eq (v : PromptFieldsView) (p r : String) :
    exceptError (promptImagesStage v p r) = specImagesError v.images := by
  obtain ⟨f1, f2, f3, f4, f5, f6, f7, fimg⟩ := v
  simp only [promptImagesStage, specImagesError]
  cases fimg with
  | none => rfl
  | some j =>
    cases j with
    | arr imgs =>
      cases imgs with
      | nil => simp [promptResult, exceptError]
      | cons hd tl =>
        simp only [List.length_cons, gt_iff_lt]
        by_cases hlen : MAX_IMAGES < tl.length + 1
        · simp [hlen, exceptError]
        · have heq := parseImageList_error_eq (hd :: tl)
          cases hrec : parseImageList (hd :: tl) with
          | error e =>
            rw [hrec] at heq
            simp only [exceptError] at heq
            simp [hlen, hrec, exceptError, ← heq]
          | ok l =>
            rw [hrec] at heq
            simp only [exceptError] at heq
            simp [hlen, hrec, exceptError, promptResult, ← heq]
    | null => rfl
    | bool b => rfl
    | num n => rfl
    | str s => rfl
    | obj fields => rfl

theorem promptProviderStage_error_eq (v : PromptFieldsView) (p r : String) :
    exceptError (promptProviderStage v p r) =
      firstSome [specProviderCheck v, specImagesError v.images] := by
  rw [promptProviderStage, specProviderCheck]
  cases hp : asString v.provider with
  | none =>
    simpa [firstSome_cons_none, firstSome_single]
      using promptImagesStage_error_eq v p r
  | some pv =>
    by_cases h : pv ≠ "claude" ∧ pv ≠ "codex" ∧ pv ≠ "ollama"
    · simp [h, firstSome_cons_some, exceptError]
    · simp [h, firstSome_cons_none, firstSome_single,
        promptImagesStage_error_eq v p r]

theorem promptProjectStage_error_eq (v : PromptFieldsView) (p r : String) :
    exceptError (promptProjectStage v p r) =
      firstSome [specProjectIdLenCheck v, specProjectIdPatCheck v,
        specProviderCheck v, specImagesError v.images] := by
  rw [promptProjectStage, specProjectIdLenCheck, specProjectIdPatCheck]
  cases hp : asString v.projectId with
  | none => simpa [firstSome] using promptProviderStage_error_eq v p r
  | some pid =>
    by_cases hlen : utf16Length pid > MAX_PROJECT_ID_LENGTH
    · simp [hlen, firstSome, exceptError]
    · by_cases hpat : PROJECT_ID_PATTERN_test pid = true
      · simp [hlen, hpat, firstSome, promptProviderStage_error_eq v p r]
      · simp [hlen, hpat, firstSome, exceptError]

theorem promptSystemStage_error_eq (v : PromptFieldsView) (p r : String) :
    exceptError (promptSystemStage v p r) =
      firstSome [specSystemPromptCheck v, specProjectIdLenCheck v,
        specProjectIdPatCheck v, specProviderCheck v,
        specImagesError v.images] := by
  rw [promptSystemStage, specSystemPromptCheck]
  by_cases h : systemPromptOver v.systemPrompt = true
  · simp [h, firstSome, exceptError]
  · simp [h, firstSome, promptProjectStage_error_eq v p r]

theorem parsePromptView_error_eq (v : PromptFieldsView) :
    exceptError (parsePromptView v) = firstSome (specPromptChecks v) := by
  rw [parsePromptView, specPromptChecks, specPromptPresenceCheck,
    specPromptSizeCheck, specRequestIdCheck]
  cases hp : asString v.prompt with
  | none => simp [firstSome, exceptError]
  | some prompt =>
    by_cases hpe : prompt.isEmpty = true
    · simp [hpe, firstSome, exceptError]
    · by_cases hps : prompt.utf8ByteSize > MAX_PROMPT_BYTES
      · simp [hpe, hps, firstSome, exceptError]
      · cases hr : asString v.requestId with
        | none => simp [hpe, hps, firstSome, exceptError]
        | some requestId =>
          by_cases hre : requestId.isEmpty = true
          · simp [hpe, hps, hre, firstSome, exceptError]
          · simp [hpe, hps, hre, firstSome,
              promptSystemStage_error_eq v prompt requestId]

theorem parsePromptFields_error_eq (fields : List (String × Json)) :
    exceptError (parsePromptFields fields) =
      firstSome (specPromptChecks (readPromptFields fields)) := by
  rw [parsePromptFields]
  exact parsePromptView_error_eq (readPromptFields fields)

theorem parseCancelFields_error_eq (fields : List (String × Json)) :
    exceptError (parseCancelFields fields) = specCancelError fields := by
  rw [parseCancelFields, specCancelError]
  cases hr : asString (jsLookup fields "requestId") with
  | none => rfl
  | some requestId =>
    by_cases hre : requestId.isEmpty = true
    · simp [hre, exceptError]
    · simp [hre, exceptError]

/-- C1: for every input frame, `parseClientMessage` applies its checks in the
spec's stated order and returns the first failing check's exact message —
non-JSON input yields "Invalid JSON"; a JSON non-object yields "Message must
be a JSON object"; a missing or non-string type yields the missing-type
message; for type "prompt" the checks run in the order empty prompt,
prompt UTF-8 size, empty requestId, systemPrompt size, projectId length then
pattern, unknown provider string, then images (count, per-image shape,
string fields, media type, data size); any other type yields "Unknown
message type: <value>" truncated to 50 characters. Stated as: the error
projection of the source-derived parser equals the spec-side ordered-check
cascade on every input. -/
theorem C1_parseClientMessage_validation_order (input : Option Json) :
    exceptError (parseClientMessage input) = specParseError input := by
  cases input with
  | none => rfl
  | some data =>
    cases data with
    | obj fields =>
      simp only [parseClientMessage, specParseError]
      cases ht : asString (jsLookup fields "type") with
      | none => rfl
      | some t =>
        by_cases hp : t = "prompt"
        · simp [hp, parsePromptFields_error_eq fields]
        · by_cases hc : t = "cancel"
          · simp [hp, hc, parseCancelFields_error_eq fields]
          · simp [hp, hc, exceptError]
    | null => rfl
    | bool b => rfl
    | num n => rfl
    | str s => rfl
    | arr l => rfl

theorem promptResult_provider_congr
    (f1 f2 f3 f4 f5 f7 f8 : Option Json) (a b : Option Json)
    (h : asString a = asString b) (p r : String)
    (i : Option (List PromptImage)) :
    promptResult ⟨f1, f2, f3, f4, f5, a, f7, f8⟩ p r i =
      promptResult ⟨f1, f2, f3, f4, f5, b, f7, f8⟩ p r i := by
  simp only [promptResult, h]

theorem promptImagesStage_provider_congr
    (f1 f2 f3 f4 f5 f7 f8 : Option Json) (a b : Option Json)
    (h : asString a = asString b) (p r : String) :
    promptImagesStage ⟨f1, f2, f3, f4, f5, a, f7, f8⟩ p r =
      promptImagesStage ⟨f1, f2, f3, f4, f5, b, f7, f8⟩ p r := by
  simp only [promptImagesStage]
  cases f8 with
  | none => exact promptResult_provider_congr f1 f2 f3 f4 f5 f7 none a b h p r none
  | some j =>
    cases j with
    | arr imgs =>
      by_cases hlen : imgs.length > 0
      · by_cases hmax : imgs.length > MAX_IMAGES
        · simp [hlen, hmax]
        · simp only [hlen, hmax, if_pos, if_neg]
          cases parseImageList imgs with
          | error e => rfl
          | ok l =>
            exact promptResult_provider_congr f1 f2 f3 f4 f5 f7
              (some (Json.arr imgs)) a b h p r (some l)
      · simp only [hlen, if_neg]
        exact promptResult_provider_congr f1 f2 f3 f4 f5 f7
          (some (Json.arr imgs)) a b h p r none
    | null =>
      exact promptResult_provider_congr f1 f2 f3 f4 f5 f7 (some Json.null) a b h p r none
    | bool x =>
      exact promptResult_provider_congr f1 f2 f3 f4 f5 f7 (some (Json.bool x)) a b h p r none
    | num x =>
      exact promptResult_provider_congr f1 f2 f3 f4 f5 f7 (some (Json.num x)) a b h p r none
    | str x =>
      exact promptResult_provider_congr f1 f2 f3 f4 f5 f7 (some (Json.str x)) a b h p r none
    | obj x =>
      exact promptResult_provider_congr f1 f2 f3 f4 f5 f7 (some (Json.obj x)) a b h p r none

theorem promptProviderStage_provider_congr
    (f1 f2 f3 f4 f5 f7 f8 : Option Json) (a b : Option Json)
    (h : asString a = asString b) (p r : String) :
    promptProviderStage ⟨f1, f2, f3, f4, f5, a, f7, f8⟩ p r =
      promptProviderStage ⟨f1, f2, f3, f4, f5, b, f7, f8⟩ p r := by
  have himg := promptImagesStage_provider_congr f1 f2 f3 f4 f5 f7 f8 a b h p r
  simp only [promptProviderStage, h]
  cases asString b with
  | none => exact himg
  | some pv =>
    by_cases hk : pv ≠ "claude" ∧ pv ≠ "codex" ∧ pv ≠ "ollama"
    · simp [hk]
    · simp only [hk, if_neg]
      exact himg

theorem promptProjectStage_provider_congr
    (f1 f2 f3 f4 f5 f7 f8 : Option Json) (a b : Option Json)
    (h : asString a = asString b) (p r : String) :
    promptProjectStage ⟨f1, f2, f3, f4, f5, a, f7, f8⟩ p r =
      promptProjectStage ⟨f1, f2, f3, f4, f5, b, f7, f8⟩ p r := by
  have hprov := promptProviderStage_provider_congr f1 f2 f3 f4 f5 f7 f8 a b h p r
  simp only [promptProjectStage]
  cases asString f5 with
  | none => exact hprov
  | some pid =>
    by_cases hlen : utf16Length pid > MAX_PROJECT_ID_LENGTH
    · simp [hlen]
    · by_cases hpat : PROJECT_ID_PATTERN_test pid = true
      · simp only [hlen, hpat, if_neg, Bool.not_true, if_pos]
        exact hprov
      · simp [hlen, hpat]

theorem promptSystemStage_provider_congr
    (f1 f2 f3 f4 f5 f7 f8 : Option Json) (a b : Option Json)
    (h : asString a = asString b) (p r : String) :
    promptSystemStage ⟨f1, f2, f3, f4, f5, a, f7, f8⟩ p r =
      promptSystemStage ⟨f1, f2, f3, f4, f5, b, f7, f8⟩ p r := by
  have hproj := promptProjectStage_provider_congr f1 f2 f3 f4 f5 f7 f8 a b h p r
  simp only [promptSystemStage]
  by_cases hs : systemPromptOver f4 = true
  · simp [hs]
  · simp only [hs, if_neg, Bool.not_true]
    exact hproj

theorem parsePromptView_provider_congr (v : PromptFieldsView)
    (a b : Option Json) (h : asString a = asString b) :
    parsePromptView { v with provider := a } =
      parsePromptView { v with provider := b } := by
  obtain ⟨f1, f2, f3, f4, f5, f6, f7, f8⟩ := v
  have hsys := fun p r => promptSystemStage_provider_congr f1 f2 f3 f4 f5 f7 f8 a b h p r
  simp only [parsePromptView]
  cases asString f1 with
  | none => rfl
  | some prompt =>
    by_cases hpe : prompt.isEmpty = true
    · simp [hpe]
    · by_cases hps : prompt.utf8ByteSize > MAX_PROMPT_BYTES
      · simp [hpe, hps]
      · cases asString f2 with
        | none => simp [hpe, hps]
        | some requestId =>
          by_cases hre : requestId.isEmpty = true
          · simp [hpe, hps, hre]
          · simp only [hpe, hps, hre, if_neg, Bool.not_true]
            exact hsys prompt requestId

theorem promptResult_ok_provider (v : PromptFieldsView) (p r : String)
    (i : Option (List PromptImage)) (m : PromptMessage)
    (h : promptResult v p r i = Except.ok (ClientMessage.prompt m)) :
    m.provider = providerCoercion v.provider := by
  simp only [promptResult, Except.ok.injEq, ClientMessage.prompt.injEq] at h
  subst h
  rfl

theorem promptImagesStage_ok_provider (v : PromptFieldsView) (p r : String)
    (m : PromptMessage)
    (h : promptImagesStage v p r = Except.ok (ClientMessage.prompt m)) :
    m.provider = providerCoercion v.provider := by
  unfold promptImagesStage at h
  split at h
  · split at h
    · split at h
      · exact absurd h (by simp)
      · split at h
        · exact absurd h (by simp)
        · exact promptResult_ok_provider _ _ _ _ _ h
    · exact promptResult_ok_provider _ _ _ _ _ h
  · exact promptResult_ok_provider _ _ _ _ _ h

theorem promptProviderStage_ok_provider (v : PromptFieldsView) (p r : String)
    (m : PromptMessage)
    (h : promptProviderStage v p r = Except.ok (ClientMessage.prompt m)) :
    m.provider = providerCoercion v.provider := by
  unfold promptProviderStage at h
  split at h
  · split at h
    · exact absurd h (by simp)
    · exact promptImagesStage_ok_provider _ _ _ _ h
  · exact promptImagesStage_ok_provider _ _ _ _ h

theorem promptProjectStage_ok_provider (v : PromptFieldsView) (p r : String)
    (m : PromptMessage)
    (h : promptProjectStage v p r = Except.ok (ClientMessage.prompt m)) :
    m.provider = providerCoercion v.provider := by
  unfold promptProjectStage at h
  split at h
  · split at h
    · exact absurd h (by simp)
    · split at h
      · exact absurd h (by simp)
      · exact promptProviderStage_ok_provider _ _ _ _ h
  · exact promptProviderStage_ok_provider _ _ _ _ h

theorem promptSystemStage_ok_provider (v : PromptFieldsView) (p r : String)
    (m : PromptMessage)
    (h : promptSystemStage v p r = Except.ok (ClientMessage.prompt m)) :
    m.provider = providerCoercion v.provider := by
  unfold promptSystemStage at h
  split at h
  · exact absurd h (by simp)
  · exact promptProjectStage_ok_provider _ _ _ _ h

theorem parsePromptView_ok_provider (v : PromptFieldsView) (m : PromptMessage)
    (h : parsePromptView v = Except.ok (ClientMessage.prompt m)) :
    m.provider = providerCoercion v.provider := by
  unfold parsePromptView at h
  split at h
  · exact absurd h (by simp)
  · split at h
    · exact absurd h (by simp)
    · split at h
      · exact absurd h (by simp)
      · split at h
        · exact absurd h (by simp)
        · split at h
          · exact absurd h (by simp)
          · exact promptSystemStage_ok_provider _ _ _ _ h

/-- C10: a prompt whose provider field is present but not a JSON string is
parsed exactly as if the provider field were absent (silently ignored, no
rejection), and every accepted prompt's provider is the coercion
codex / ollama / claude-by-default of the raw field — so only string-valued
unknown providers are rejected and every accepted provider is one of the
three tags. -/
theorem C10_provider_nonstring_defaults_claude :
    (∀ (v : PromptFieldsView) (j : Json), asString (some j) = none →
      parsePromptView { v with provider := some j } =
        parsePromptView { v with provider := none }) ∧
    (∀ (v : PromptFieldsView) (m : PromptMessage),
      parsePromptView v = Except.ok (ClientMessage.prompt m) →
      m.provider = providerCoercion v.provider) := by
  constructor
  · intro v j h
    exact parsePromptView_provider_congr v (some j) none h
  · intro v m h
    exact parsePromptView_ok_provider v m h

theorem C10_provider_nonstring_defaults_claude_witness :
    (asString (some (Json.num 5)) = none ∧
      parsePromptView ⟨some (Json.str "hi"), some (Json.str "r1"), none, none,
          none, some (Json.num 5), none, none⟩ =
        parsePromptView ⟨some (Json.str "hi"), some (Json.str "r1"), none, none,
          none, none, none, none⟩) ∧
    (parsePromptView ⟨some (Json.str "hi"), some (Json.str "r1"), none, none,
        none, some (Json.num 5), none, none⟩ =
      Except.ok (ClientMessage.prompt
        { prompt := "hi", model := none, systemPrompt := none, projectId := none,
          requestId := "r1", provider := ProviderTag.claude,
          thinkingTokens := none, images := none }) ∧
      PromptMessage.provider
        { prompt := "hi", model := none, systemPrompt := none, projectId := none,
          requestId := "r1", provider := ProviderTag.claude,
          thinkingTokens := none, images := none } =
        providerCoercion (some (Json.num 5))) := by
  refine ⟨⟨rfl, ?_⟩, rfl, ?_⟩
  · exact C10_provider_nonstring_defaults_claude.1
      ⟨some (Json.str "hi"), some (Json.str "r1"), none, none,
        none, none, none, none⟩ (Json.num 5) rfl
  · exact C10_provider_nonstring_defaults_claude.2
      ⟨some (Json.str "hi"), some (Json.str "r1"), none, none,
        none, some (Json.num 5), none, none⟩ _ rfl

theorem getProviderRunner_cached (s : ConnectionState) (p : ProviderTag)
    (r : Nat) (h : cachedRunner s p = some r) :
    getProviderRunner s p = (s, r, []) := by
  cases p <;> simp [cachedRunner] at h <;> simp [getProviderRunner, h]

theorem getProviderRunner_fresh (s : ConnectionState) (p : ProviderTag)
    (h : cachedRunner s p = none) :
    ∃ s1, getProviderRunner s p =
        (s1, s.nextRunnerId, [ServerAction.createRunner p s.nextRunnerId]) ∧
      cachedRunner s1 p = some s.nextRunnerId ∧
      s1.requests = s.requests ∧
      (∀ p0 r0, cachedRunner s p0 = some r0 → cachedRunner s1 p0 = some r0) := by
  cases p with
  | claude =>
    simp only [cachedRunner] at h
    refine ⟨{ s with claudeRunner := some s.nextRunnerId,
                     nextRunnerId := s.nextRunnerId + 1 },
      by simp [getProviderRunner, h], rfl, rfl, ?_⟩
    intro p0 r0 h0
    cases p0 with
    | claude => simp [cachedRunner, h] at h0
    | codex => exact h0
    | ollama => exact h0
  | codex =>
    simp only [cachedRunner] at h
    refine ⟨{ s with codexRunner := some s.nextRunnerId,
                     nextRunnerId := s.nextRunnerId + 1 },
      by simp [getProviderRunner, h], rfl, rfl, ?_⟩
    intro p0 r0 h0
    cases p0 with
    | claude => exact h0
    | codex => simp [cachedRunner, h] at h0
    | ollama => exact h0
  | ollama =>
    simp only [cachedRunner] at h
    refine ⟨{ s with ollamaRunner := some s.nextRunnerId,
                     nextRunnerId := s.nextRunnerId + 1 },
      by simp [getProviderRunner, h], rfl, rfl, ?_⟩
    intro p0 r0 h0
    cases p0 with
    | claude => exact h0
    | codex => exact h0
    | ollama => simp [cachedRunner, h] at h0

theorem requestsHas_delete (l : List (String × Nat)) (id : String) :
    requestsHas (requestsDelete l id) id = false := by
  induction l with
  | nil => rfl
  | cons hd tl ih =>
    by_cases h : hd.1 = id
    · simp only [requestsDelete] at ih ⊢
      rw [List.filter_cons_of_neg (by simpa using h)]
      exact ih
    · simp only [requestsDelete] at ih ⊢
      rw [List.filter_cons_of_pos (by simpa using h)]
      simp only [requestsHas, List.any_cons, Bool.or_eq_false_iff]
      refine ⟨by simpa using h, ?_⟩
      exact ih

theorem getProviderRunner_requests (s : ConnectionState) (p : ProviderTag) :
    (getProviderRunner s p).1.requests = s.requests := by
  cases p with
  | claude => cases h : s.claudeRunner <;> simp [getProviderRunner, h]
  | codex => cases h : s.codexRunner <;> simp [getProviderRunner, h]
  | ollama => cases h : s.ollamaRunner <;> simp [getProviderRunner, h]

theorem requestsHas_false_not_mem (l : List (String × Nat)) (id : String)
    (h : requestsHas l id = false) : id ∉ l.map Prod.fst := by
  intro hmem
  simp only [List.mem_map] at hmem
  obtain ⟨e, he, hfst⟩ := hmem
  simp only [requestsHas, List.any_eq_false] at h
  exact absurd hfst (by simpa using h e he)

/-- C2: on a prompt frame, a requestId already in the request map draws the
error "Request <id> is already in progress" carrying the id, with no runner
created, run, or killed; otherwise the id is inserted into the map strictly
before `runner.run`, the runner used is the cached per-provider runner
(reused when cached, created and cached exactly once when absent), and the
map keys stay pairwise distinct. -/
theorem C2_handlePrompt_dedup_insert_before_run_runner_reuse
    (s : ConnectionState) (m : PromptMessage) :
    (requestsHas s.requests m.requestId = true →
      handlePrompt s m = (s,
        [ServerAction.send (AgentMessage.error
          ("Request " ++ m.requestId ++ " is already in progress")
          (some m.requestId))]) ∧
      ∀ a ∈ (handlePrompt s m).2, a.touchesRunner = false) ∧
    (requestsHas s.requests m.requestId = false →
      (∀ s1 r acts, getProviderRunner s m.provider = (s1, r, acts) →
        handlePrompt s m =
          ({ s1 with requests := s1.requests ++ [(m.requestId, r)] },
           acts ++ [ServerAction.insertRequest m.requestId r,
                    ServerAction.runnerRun r m.requestId])) ∧
      (∀ r0, cachedRunner s m.provider = some r0 →
        getProviderRunner s m.provider = (s, r0, [])) ∧
      (cachedRunner s m.provider = none →
        ∃ s1, getProviderRunner s m.provider =
            (s1, s.nextRunnerId,
             [ServerAction.createRunner m.provider s.nextRunnerId]) ∧
          cachedRunner s1 m.provider = some s.nextRunnerId ∧
          s1.requests = s.requests)) ∧
    (requestsNodup s.requests → requestsNodup (handlePrompt s m).1.requests) := by
  refine ⟨?_, ?_, ?_⟩
  · intro hdup
    have he : handlePrompt s m = (s,
        [ServerAction.send (AgentMessage.error
          ("Request " ++ m.requestId ++ " is already in progress")
          (some m.requestId))]) := by
      simp [handlePrompt, hdup]
    refine ⟨he, ?_⟩
    rw [he]
    intro a ha
    simp only [List.mem_singleton] at ha
    subst ha
    rfl
  · intro hnew
    refine ⟨?_, ?_, ?_⟩
    · intro s1 r acts hg
      simp [handlePrompt, hnew, hg]
    · intro r0 h0
      exact getProviderRunner_cached s m.provider r0 h0
    · intro h0
      obtain ⟨s1, hg, hc, hr, _⟩ := getProviderRunner_fresh s m.provider h0
      exact ⟨s1, hg, hc, hr⟩
  · intro hn
    by_cases hdup : requestsHas s.requests m.requestId = true
    · simp [handlePrompt, hdup]
      exact hn
    · rw [Bool.not_eq_true] at hdup
      rcases hg : getProviderRunner s m.provider with ⟨s1, r, acts⟩
      have hreq : s1.requests = s.requests := by
        have := getProviderRunner_requests s m.provider
        rw [hg] at this
        exact this
      have he : handlePrompt s m =
          ({ s1 with requests := s1.requests ++ [(m.requestId, r)] },
           acts ++ [ServerAction.insertRequest m.requestId r,
                    ServerAction.runnerRun r m.requestId]) := by
        simp [handlePrompt, hdup, hg]
      rw [he]
      simp only [requestsNodup, hreq, List.map_append, List.map_cons,
        List.map_nil]
      rw [List.nodup_append]
      refine ⟨hn, List.nodup_singleton _, ?_⟩
      intro x hx hy
      simp only [List.mem_singleton] at hy
      subst hy
      exact requestsHas_false_not_mem s.requests m.requestId hdup hx

/-- C3: on a cancel frame, an absent requestId draws the error "No active
request with id: <id>" carrying the id and touches no runner; a present id
draws exactly one `kill()` on that request's runner, removal of the id from
the map, and the error "Request cancelled" carrying the id, after which a
prompt with the same id is accepted (its trace contains a run action). -/
theorem C3_handleCancel_unknown_noop_known_kills_once
    (s : ConnectionState) (id : String) :
    (requestsGet s.requests id = none →
      handleCancel s id = (s,
        [ServerAction.send (AgentMessage.error
          ("No active request with id: " ++ id) (some id))]) ∧
      ∀ a ∈ (handleCancel s id).2, a.touchesRunner = false) ∧
    (∀ r, requestsGet s.requests id = some r →
      handleCancel s id = ({ s with requests := requestsDelete s.requests id },
        [ServerAction.runnerKill r,
         ServerAction.deleteRequest id,
         ServerAction.send (AgentMessage.error "Request cancelled" (some id))]) ∧
      (handleCancel s id).2.countP
        (fun a => match a with
          | ServerAction.runnerKill _ => true
          | _ => false) = 1 ∧
      requestsHas (handleCancel s id).1.requests id = false ∧
      (∀ m : PromptMessage, m.requestId = id →
        ∃ r2, ServerAction.runnerRun r2 id ∈
          (handlePrompt (handleCancel s id).1 m).2)) := by
  constructor
  · intro hnone
    have he : handleCancel s id = (s,
        [ServerAction.send (AgentMessage.error
          ("No active request with id: " ++ id) (some id))]) := by
      simp [handleCancel, hnone]
    refine ⟨he, ?_⟩
    rw [he]
    intro a ha
    simp only [List.mem_singleton] at ha
    subst ha
    rfl
  · intro r hr
    have he : handleCancel s id =
        ({ s with requests := requestsDelete s.requests id },
         [ServerAction.runnerKill r,
          ServerAction.deleteRequest id,
          ServerAction.send (AgentMessage.error "Request cancelled" (some id))]) := by
      simp [handleCancel, hr]
    refine ⟨he, ?_, ?_, ?_⟩
    · rw [he]
      rfl
    · rw [he]
      exact requestsHas_delete s.requests id
    · intro m hm
      have hfalse : requestsHas (handleCancel s id).1.requests m.requestId = false := by
        rw [he, hm]
        exact requestsHas_delete s.requests id
      rcases hg : getProviderRunner (handleCancel s id).1 m.provider with ⟨s1, r2, acts⟩
      refine ⟨r2, ?_⟩
      have he2 : handlePrompt (handleCancel s id).1 m =
          ({ s1 with requests := s1.requests ++ [(m.requestId, r2)] },
           acts ++ [ServerAction.insertRequest m.requestId r2,
                    ServerAction.runnerRun r2 m.requestId]) := by
        simp [handlePrompt, hfalse, hg]
      rw [he2, hm]
      simp

theorem C2_handlePrompt_dedup_insert_before_run_runner_reuse_witness :
    requestsHas [("r1", 0)] "r1" = true ∧
    handlePrompt
        { requests := [("r1", 0)], claudeRunner := some 0, codexRunner := none,
          ollamaRunner := none, nextRunnerId := 1 }
        { prompt := "hi", model := none, systemPrompt := none, projectId := none,
          requestId := "r1", provider := ProviderTag.claude,
          thinkingTokens := none, images := none } =
      ({ requests := [("r1", 0)], claudeRunner := some 0, codexRunner := none,
         ollamaRunner := none, nextRunnerId := 1 },
       [ServerAction.send (AgentMessage.error
         "Request r1 is already in progress" (some "r1"))]) := by
  refine ⟨rfl, ?_⟩
  have h := ((C2_handlePrompt_dedup_insert_before_run_runner_reuse
    { requests := [("r1", 0)], claudeRunner := some 0, codexRunner := none,
      ollamaRunner := none, nextRunnerId := 1 }
    { prompt := "hi", model := none, systemPrompt := none, projectId := none,
      requestId := "r1", provider := ProviderTag.claude,
      thinkingTokens := none, images := none }).1 rfl).1
  exact h

theorem C3_handleCancel_unknown_noop_known_kills_once_witness :
    requestsGet [("r1", 7)] "r1" = some 7 ∧
    handleCancel
        { requests := [("r1", 7)], claudeRunner := some 7, codexRunner := none,
          ollamaRunner := none, nextRunnerId := 8 } "r1" =
      ({ requests := [], claudeRunner := some 7, codexRunner := none,
         ollamaRunner := none, nextRunnerId := 8 },
       [ServerAction.runnerKill 7,
        ServerAction.deleteRequest "r1",
        ServerAction.send (AgentMessage.error "Request cancelled" (some "r1"))]) := by
  refine ⟨rfl, ?_⟩
  have h := (((C3_handleCancel_unknown_noop_known_kills_once
    { requests := [("r1", 7)], claudeRunner := some 7, codexRunner := none,
      ollamaRunner := none, nextRunnerId := 8 } "r1").2 7) rfl).1
  exact h

theorem terminalCount_append (ex : Nat) (a b : List (Nat × HandlerCall)) :
    terminalCount ex (a ++ b) = terminalCount ex a + terminalCount ex b := by
  simp [terminalCount, List.filter_append]

theorem runnerKillFn_doneOf (s : RunnerState) :
    (runnerKillFn s).doneOf = s.doneOf := by
  unfold runnerKillFn
  cases s.current <;> rfl

theorem runnerFinish_terminal (ex : Nat) (s : RunnerState) (ex' : Nat)
    (c : HandlerCall) :
    (s.doneOf ex = true →
      terminalCount ex (runnerFinish s ex' c).2 = 0 ∧
      (runnerFinish s ex' c).1.doneOf ex = true) ∧
    terminalCount ex (runnerFinish s ex' c).2 ≤ 1 ∧
    (terminalCount ex (runnerFinish s ex' c).2 = 1 →
      (runnerFinish s ex' c).1.doneOf ex = true) := by
  unfold runnerFinish
  by_cases hd : s.doneOf ex' = true
  · simp [hd, terminalCount]
  · simp only [hd, if_neg, Bool.not_eq_true, if_false]
    by_cases hex : ex' = ex
    · subst hex
      refine ⟨fun h => absurd h hd, ?_, ?_⟩
      · cases c <;> simp [terminalCount, HandlerCall.isTerminal]
      · intro h
        simp
    · refine ⟨fun h => ⟨?_, ?_⟩, ?_, ?_⟩
      · simp [terminalCount, hex]
      · simp [hex, h]
      · simp [terminalCount, hex]
      · intro h
        simp [terminalCount, hex] at h

theorem runnerStep_terminal (ex : Nat) (s : RunnerState) (e : RunnerEvent)
    (hne : ∀ rid, e ≠ RunnerEvent.runCall rid) :
    (s.doneOf ex = true →
      terminalCount ex (runnerStep s e).2 = 0 ∧
      (runnerStep s e).1.doneOf ex = true) ∧
    terminalCount ex (runnerStep s e).2 ≤ 1 ∧
    (terminalCount ex (runnerStep s e).2 = 1 →
      (runnerStep s e).1.doneOf ex = true) := by
  cases e with
  | runCall rid => exact absurd rfl (hne rid)
  | killCall =>
    refine ⟨fun h => ⟨rfl, ?_⟩, by simp [runnerStep, terminalCount], ?_⟩
    · simp only [runnerStep, runnerKillFn_doneOf]
      exact h
    · intro h
      simp [runnerStep, terminalCount] at h
  | disposeCall =>
    refine ⟨fun h => ⟨rfl, ?_⟩, by simp [runnerStep, terminalCount], ?_⟩
    · simp only [runnerStep, runnerKillFn_doneOf]
      exact h
    · intro h
      simp [runnerStep, terminalCount] at h
  | procExit ex' exitCode signal =>
    simp only [runnerStep]
    by_cases hk : s.killed = true
    · simp [hk, terminalCount]
    · simp only [hk, if_neg, Bool.not_eq_true, if_false]
      by_cases hz : exitCode = some 0
      · simpa [hz] using
          runnerFinish_terminal ex { s with current := none, killed := false }
            ex' (HandlerCall.onComplete (s.reqOf ex'))
      · simpa [hz] using
          runnerFinish_terminal ex { s with current := none, killed := false }
            ex' (HandlerCall.onError (exitReason exitCode signal) (s.reqOf ex'))
  | procError ex' message =>
    simpa [runnerStep] using
      runnerFinish_terminal ex { s with current := none } ex'
        (HandlerCall.onError message (s.reqOf ex'))
  | stdoutLine ex' content thinking =>
    refine ⟨fun h => ⟨?_, h⟩, ?_, ?_⟩
    · simp [runnerStep, terminalCount, HandlerCall.isTerminal]
    · simp [runnerStep, terminalCount, HandlerCall.isTerminal]
    · intro h
      simp [runnerStep, terminalCount, HandlerCall.isTerminal] at h
  | timeoutFire ex' =>
    simp only [runnerStep]
    by_cases ha : s.timeoutOf = some ex'
    · have := runnerFinish_terminal ex (runnerKillFn s) ex'
        (HandlerCall.onError "Process timed out" ((runnerKillFn s).reqOf ex'))
      simpa [ha, runnerKillFn_doneOf] using this
    · simp [ha, terminalCount]

theorem runnerTrace_done_no_terminal (ex : Nat) :
    ∀ (events : List RunnerEvent) (s : RunnerState),
      hasRunCall events = false → s.doneOf ex = true →
      terminalCount ex (runnerTrace s events).2 = 0 := by
  intro events
  induction events with
  | nil => intro s _ _; rfl
  | cons e rest ih =>
    intro s hrun hdone
    have hrune : ∀ rid, e ≠ RunnerEvent.runCall rid := by
      intro rid heq
      subst heq
      simp [hasRunCall] at hrun
    have hrest : hasRunCall rest = false := by
      simp only [hasRunCall, List.any_cons, Bool.or_eq_false_iff] at hrun
      exact hrun.2
    obtain ⟨hstep0, _, _⟩ := runnerStep_terminal ex s e hrune
    obtain ⟨hc0, hd1⟩ := hstep0 hdone
    simp only [runnerTrace]
    rcases h1 : runnerStep s e with ⟨s1, calls1⟩
    rcases h2 : runnerTrace s1 rest with ⟨s2, calls2⟩
    simp only [terminalCount_append]
    rw [h1] at hc0 hd1
    have := ih s1 hrest hd1
    rw [h2] at this
    simp only [hc0, this]

theorem runnerTrace_terminal_le_one (ex : Nat) :
    ∀ (events : List RunnerEvent) (s : RunnerState),
      hasRunCall events = false →
      terminalCount ex (runnerTrace s events).2 ≤ 1 := by
  intro events
  induction events with
  | nil => intro s _; simp [runnerTrace, terminalCount]
  | cons e rest ih =>
    intro s hrun
    have hrune : ∀ rid, e ≠ RunnerEvent.runCall rid := by
      intro rid heq
      subst heq
      simp [hasRunCall] at hrun
    have hrest : hasRunCall rest = false := by
      simp only [hasRunCall, List.any_cons, Bool.or_eq_false_iff] at hrun
      exact hrun.2
    obtain ⟨_, hle, hone⟩ := runnerStep_terminal ex s e hrune
    simp only [runnerTrace]
    rcases h1 : runnerStep s e with ⟨s1, calls1⟩
    rcases h2 : runnerTrace s1 rest with ⟨s2, calls2⟩
    simp only [terminalCount_append]
    rw [h1] at hle hone
    simp only at hle hone
    interval_cases h : terminalCount ex calls1
    · have := ih s1 hrest
      rw [h2] at this
      simpa using this
    · have hd1 : s1.doneOf ex = true := hone rfl
      have := runnerTrace_done_no_terminal ex rest s1 hrest hd1
      rw [h2] at this
      simp [this]

/-- C4: at child-process exit, a set killed flag suppresses every handler;
otherwise exit code 0 invokes `onComplete(requestId)`, a non-zero code N
invokes `onError("CLI exited with code N", requestId)`, and a signalled exit
without a code invokes `onError("CLI killed by signal S", requestId)`; and
over any event sequence without a new run call, the one-shot finish guard
lets at most one terminal handler fire per execution, even when both exit
and error events fire. -/
theorem C4_exit_reconciliation_and_finish_guard (s : RunnerState) (ex : Nat) :
    (∀ exitCode signal, s.killed = true →
      (runnerStep s (RunnerEvent.procExit ex exitCode signal)).2 = []) ∧
    (∀ signal, s.killed = false → s.doneOf ex = false →
      (runnerStep s (RunnerEvent.procExit ex (some 0) signal)).2 =
        [(ex, HandlerCall.onComplete (s.reqOf ex))]) ∧
    (∀ (n : Int) signal, s.killed = false → s.doneOf ex = false → ¬n = 0 →
      (runnerStep s (RunnerEvent.procExit ex (some n) signal)).2 =
        [(ex, HandlerCall.onError ("CLI exited with code " ++ toString n)
          (s.reqOf ex))]) ∧
    (∀ sg, s.killed = false → s.doneOf ex = false →
      (runnerStep s (RunnerEvent.procExit ex none (some sg))).2 =
        [(ex, HandlerCall.onError ("CLI killed by signal " ++ sg)
          (s.reqOf ex))]) ∧
    (∀ events, hasRunCall events = false →
      terminalCount ex (runnerTrace s events).2 ≤ 1) := by
  refine ⟨?_, ?_, ?_, ?_, ?_⟩
  · intro exitCode signal hk
    simp [runnerStep, hk]
  · intro signal hk hd
    simp [runnerStep, hk, runnerFinish, hd]
  · intro n signal hk hd hn
    have hz : ¬ (some n = some (0 : Int)) := by simpa using hn
    simp [runnerStep, hk, hz, runnerFinish, hd, exitReason]
  · intro sg hk hd
    simp [runnerStep, hk, runnerFinish, hd, exitReason]
  · intro events hrun
    exact runnerTrace_terminal_le_one ex events s hrun

theorem C4_exit_reconciliation_and_finish_guard_witness :
    ((runnerTrace initialRunnerState
        [RunnerEvent.runCall "r1", RunnerEvent.killCall]).1.killed = true ∧
      (runnerStep (runnerTrace initialRunnerState
          [RunnerEvent.runCall "r1", RunnerEvent.killCall]).1
        (RunnerEvent.procExit 0 (some 0) none)).2 = []) ∧
    ((runnerTrace initialRunnerState [RunnerEvent.runCall "r1"]).1.killed = false ∧
     (runnerTrace initialRunnerState [RunnerEvent.runCall "r1"]).1.doneOf 0 = false ∧
     (runnerStep (runnerTrace initialRunnerState [RunnerEvent.runCall "r1"]).1
        (RunnerEvent.procExit 0 (some 0) none)).2 =
       [(0, HandlerCall.onComplete "r1")] ∧
     (runnerStep (runnerTrace initialRunnerState [RunnerEvent.runCall "r1"]).1
        (RunnerEvent.procExit 0 (some 2) none)).2 =
       [(0, HandlerCall.onError "CLI exited with code 2" "r1")] ∧
     (runnerStep (runnerTrace initialRunnerState [RunnerEvent.runCall "r1"]).1
        (RunnerEvent.procExit 0 none (some "SIGTERM"))).2 =
       [(0, HandlerCall.onError "CLI killed by signal SIGTERM" "r1")]) ∧
    (hasRunCall [RunnerEvent.procExit 0 (some 1) none,
        RunnerEvent.procError 0 "boom"] = false ∧
     terminalCount 0 (runnerTrace
        (runnerTrace initialRunnerState [RunnerEvent.runCall "r1"]).1
        [RunnerEvent.procExit 0 (some 1) none,
         RunnerEvent.procError 0 "boom"]).2 ≤ 1) := by
  refine ⟨⟨rfl, ?_⟩, ⟨rfl, rfl, ?_, ?_, ?_⟩, rfl, ?_⟩
  · exact (C4_exit_reconciliation_and_finish_guard _ 0).1 (some 0) none rfl
  · exact (C4_exit_reconciliation_and_finish_guard _ 0).2.1 none rfl rfl
  · exact (C4_exit_reconciliation_and_finish_guard _ 0).2.2.1 2 none rfl rfl
      (by decide)
  · exact (C4_exit_reconciliation_and_finish_guard _ 0).2.2.2.1 "SIGTERM" rfl rfl
  · exact (C4_exit_reconciliation_and_finish_guard _ 0).2.2.2.2
      [RunnerEvent.procExit 0 (some 1) none, RunnerEvent.procError 0 "boom"] rfl

/-- C5 counterexample: the claim says that after the implicit kill performed
by `run` on a live prior execution, no callback of the killed execution ever
fires, the terminal event being suppressed by the killed flag. In fact
`run` resets `killed := false` before spawning, so on the concrete trace
run r1, run r2, exit of execution 0 the killed execution 0 still delivers
`onError("CLI killed by signal SIGTERM", "r1")` after the kill. -/
theorem C5_counterexample_implicit_kill_delivers_terminal :
    (runnerTrace initialRunnerState [RunnerEvent.runCall "r1"]).1.current =
      some 0 ∧
    (runnerTrace initialRunnerState
      [RunnerEvent.runCall "r1", RunnerEvent.runCall "r2"]).1.killed = false ∧
    (runnerTrace initialRunnerState
      [RunnerEvent.runCall "r1", RunnerEvent.runCall "r2",
       RunnerEvent.procExit 0 none (some "SIGTERM")]).2 =
      [(0, HandlerCall.onError "CLI killed by signal SIGTERM" "r1")] :=
  ⟨rfl, rfl, rfl⟩

/-- C5 amended: after an explicit `kill()` of a live child the killed flag is
set and, while it remains set, the child's exit event emits nothing; but
`run` resets the killed flag before spawning, so a prior execution's exit
event arriving after the new run call delivers its terminal handler
("CLI killed by signal S") instead of being suppressed; and stdout line
events are not guarded by the kill at all. -/
theorem C5_kill_suppression_scope (s : RunnerState) :
    (∀ ex exitCode signal, s.current.isSome = true →
      (runnerStep (runnerStep s RunnerEvent.killCall).1
        (RunnerEvent.procExit ex exitCode signal)).2 = []) ∧
    (∀ ex exitCode signal, s.killed = true →
      (runnerStep s (RunnerEvent.procExit ex exitCode signal)).2 = []) ∧
    (∀ rid, s.disposed = false →
      (runnerStep s (RunnerEvent.runCall rid)).1.killed = false) ∧
    (∀ rid ex sg, s.disposed = false → s.doneOf ex = false → ¬ex = s.nextEx →
      (runnerTrace s [RunnerEvent.runCall rid,
        RunnerEvent.procExit ex none (some sg)]).2 =
        [(ex, HandlerCall.onError ("CLI killed by signal " ++ sg)
          (s.reqOf ex))]) ∧
    (∀ ex content thinking,
      (runnerStep s (RunnerEvent.stdoutLine ex content thinking)).2 =
        [(ex, HandlerCall.onChunk content (s.reqOf ex) thinking)]) := by
  refine ⟨?_, ?_, ?_, ?_, ?_⟩
  · intro ex exitCode signal hc
    rcases hcur : s.current with _ | e0
    · rw [hcur] at hc
      simp at hc
    · simp [runnerStep, runnerKillFn, hcur]
  · intro ex exitCode signal hk
    simp [runnerStep, hk]
  · intro rid hdisp
    rcases hcur : s.current with _ | e0 <;>
      simp [runnerStep, runnerKillFn, hdisp, hcur]
  · intro rid ex sg hdisp hdone hex
    rcases hcur : s.current with _ | e0 <;>
      simp [runnerTrace, runnerStep, runnerKillFn, runnerFinish, hdisp, hcur,
        hdone, hex, exitReason]
  · intro ex content thinking
    rfl

theorem C5_kill_suppression_scope_witness :
    ((runnerTrace initialRunnerState
        [RunnerEvent.runCall "r1"]).1.current.isSome = true ∧
     (runnerStep (runnerStep (runnerTrace initialRunnerState
          [RunnerEvent.runCall "r1"]).1 RunnerEvent.killCall).1
        (RunnerEvent.procExit 0 (some 0) none)).2 = []) ∧
    ((runnerTrace initialRunnerState [RunnerEvent.runCall "r1",
        RunnerEvent.killCall]).1.killed = true ∧
     (runnerStep (runnerTrace initialRunnerState [RunnerEvent.runCall "r1",
        RunnerEvent.killCall]).1 (RunnerEvent.procExit 0 none none)).2 = []) ∧
    ((runnerTrace initialRunnerState [RunnerEvent.runCall "r1"]).1.disposed =
        false ∧
     (runnerStep (runnerTrace initialRunnerState [RunnerEvent.runCall "r1"]).1
        (RunnerEvent.runCall "r2")).1.killed = false) ∧
    (¬(0 : Nat) =
        (runnerTrace initialRunnerState [RunnerEvent.runCall "r1"]).1.nextEx ∧
     (runnerTrace (runnerTrace initialRunnerState [RunnerEvent.runCall "r1"]).1
        [RunnerEvent.runCall "r2",
         RunnerEvent.procExit 0 none (some "SIGKILL")]).2 =
       [(0, HandlerCall.onError "CLI killed by signal SIGKILL" "r1")]) ∧
    (runnerStep (runnerTrace initialRunnerState [RunnerEvent.runCall "r1"]).1
       (RunnerEvent.stdoutLine 0 "hello" false)).2 =
      [(0, HandlerCall.onChunk "hello" "r1" false)] := by
  refine ⟨⟨rfl, ?_⟩, ⟨rfl, ?_⟩, ⟨rfl, ?_⟩, ⟨by decide, ?_⟩, ?_⟩
  · exact (C5_kill_suppression_scope _).1 0 (some 0) none rfl
  · exact (C5_kill_suppression_scope _).2.1 0 none none rfl
  · exact (C5_kill_suppression_scope _).2.2.1 "r2" rfl
  · exact (C5_kill_suppression_scope _).2.2.2.1 "r2" 0 "SIGKILL" rfl rfl
      (by decide)
  · exact (C5_kill_suppression_scope _).2.2.2.2 0 "hello" false

theorem jsStartsWith_append (pre rest : String) :
    jsStartsWith (pre ++ rest) pre = true := by
  unfold jsStartsWith
  rw [show (pre ++ rest).data = pre.data ++ rest.data from rfl,
    List.isPrefixOf_iff_prefix]
  exact List.prefix_append pre.data rest.data

/-- C6 counterexample: the claim says the providers spawn only when the
resolved working directory lies strictly within the session base. The
projectId "." is accepted by the protocol validator, resolves to the base
itself, and the provider check `!cwd.startsWith(base + "/") && cwd !== base`
accepts it and spawns with cwd equal to the base — which is not strictly
within the base. -/
theorem C6_counterexample_dot_projectId :
    acceptedProjectId "." = true ∧
    providerCwdCheck sessionBase "." = some sessionBase ∧
    strictlyWithin sessionBase sessionBase = false := by
  refine ⟨by decide, by rfl, by decide⟩

/-- C6 amended: for every validator-accepted projectId, the providers reject
exactly ".." (resolution escaping the base) with no spawn, spawn with cwd
equal to the base itself for ".", and for every other accepted projectId
spawn with cwd base/projectId, which lies strictly within the base. -/
theorem C6_projectId_containment (pid : String)
    (h : acceptedProjectId pid = true) :
    (pid = ".." → providerCwdCheck sessionBase pid = none) ∧
    (pid = "." → providerCwdCheck sessionBase pid = some sessionBase) ∧
    (¬pid = "." → ¬pid = ".." →
      providerCwdCheck sessionBase pid = some (sessionBase ++ "/" ++ pid) ∧
      strictlyWithin (sessionBase ++ "/" ++ pid) sessionBase = true) := by
  refine ⟨?_, ?_, ?_⟩
  · intro hdd
    subst hdd
    rfl
  · intro hd
    subst hd
    rfl
  · intro hd hdd
    have hresolve : resolveChild sessionBase pid = sessionBase ++ "/" ++ pid := by
      unfold resolveChild
      rw [if_neg hd, if_neg hdd]
    have hpre : jsStartsWith (sessionBase ++ "/" ++ pid) (sessionBase ++ "/") =
        true := by
      rw [String.append_assoc]
      exact jsStartsWith_append (sessionBase ++ "/") pid
    constructor
    · unfold providerCwdCheck
      rw [hresolve, if_neg]
      intro hcond
      rw [hpre] at hcond
      simp at hcond
    · unfold strictlyWithin
      exact hpre

theorem C6_projectId_containment_witness :
    acceptedProjectId "proj-1" = true ∧
    ¬"proj-1" = "." ∧ ¬"proj-1" = ".." ∧
    providerCwdCheck sessionBase "proj-1" =
      some (sessionBase ++ "/" ++ "proj-1") ∧
    strictlyWithin (sessionBase ++ "/" ++ "proj-1") sessionBase = true := by
  refine ⟨by decide, by decide, by decide, ?_, ?_⟩
  · exact ((C6_projectId_containment "proj-1" (by decide)).2.2
      (by decide) (by decide)).1
  · exact ((C6_projectId_containment "proj-1" (by decide)).2.2
      (by decide) (by decide)).2

/-- C7 counterexample: the claim says a JSON line containing an error field
emits onError and stops processing. The line with error set to the empty
string contains an error field, yet the truthiness test skips it and
processing continues to the following done line, emitting only
onComplete. -/
theorem C7_counterexample_falsy_error_field :
    jsIndex (Json.obj [("error", Json.str "")]) "error" = some (Json.str "") ∧
    ollamaProcessLines "r"
      [StreamLine.json (Json.obj [("error", Json.str "")]),
       StreamLine.json (Json.obj [("done", Json.bool true)])] false =
      [OllamaCall.complete "r"] :=
  ⟨rfl, rfl⟩

/-- C7 amended: per complete non-blank line in order, a truthy error field
emits onError and stops (a falsy one is ignored); a truthy response emits
onChunk (an empty response emits nothing); a truthy done emits onComplete
and stops; non-JSON and blank lines are skipped; and a stream ending
without done emits onComplete unless aborted, in which case nothing.
Stated as: the read loop equals the spec-side per-line interpreter on every
stream. -/
theorem C7_stream_interpretation (requestId : String)
    (lines : List StreamLine) (aborted : Bool) :
    ollamaProcessLines requestId lines aborted =
      specOllamaStream requestId lines aborted := by
  induction lines with
  | nil => rfl
  | cons l rest ih =>
    cases l with
    | blank => exact ih
    | nonJson => exact ih
    | json j =>
      simp only [ollamaProcessLines, specOllamaStream, specOllamaLineEffect]
      by_cases he : optTruthy (jsIndex j "error") = true
      · simp [he]
      · by_cases hd : optTruthy (jsIndex j "done") = true
        · simp [he, hd]
        · simp [he, hd, ih]

/-- C8 counterexample: the claim says the HTTP-error message is
"HTTP <code>: <first 200 chars of body>". For status 500 and body "boom"
the runner actually emits "Ollama returned HTTP 500: boom", which differs
from the claimed "HTTP 500: boom". -/
theorem C8_counterexample_http_message_has_prefix :
    ollamaRunModel { disposed := false } "http://localhost:11434" "r"
      (FetchOutcome.httpResponse 500 "boom" (some [])) false =
      ([OllamaCall.error (Json.str "Ollama returned HTTP 500: boom") "r"],
       true) ∧
    ¬"Ollama returned HTTP 500: boom" = "HTTP 500: boom" :=
  ⟨rfl, by decide⟩

/-- C8 amended: on an HTTP error status the runner emits one onError with
the message "Ollama returned HTTP <code>: <first 200 chars of body>" for
the request id, and on a refused connection (an ECONNREFUSED rejection) it
emits "Ollama server not reachable at <baseUrl>. Is Ollama running?". -/
theorem C8_http_and_connection_errors (status : Nat) (bodyText : String)
    (body : Option (List StreamLine)) (requestId baseUrl errMsg : String) :
    (responseOk status = false →
      ollamaRunModel { disposed := false } baseUrl requestId
        (FetchOutcome.httpResponse status bodyText body) false =
        ([OllamaCall.error (Json.str ("Ollama returned HTTP " ++
          toString status ++ ": " ++ utf16TakeStr 200 bodyText)) requestId],
         true)) ∧
    (jsIncludes errMsg "ECONNREFUSED" = true →
      ollamaRunModel { disposed := false } baseUrl requestId
        (FetchOutcome.netError (some errMsg)) false =
        ([OllamaCall.error (Json.str ("Ollama server not reachable at " ++
          baseUrl ++ ". Is Ollama running?")) requestId], true)) := by
  constructor
  · intro hstatus
    simp [ollamaRunModel, ollamaFetchStream, httpErrorMessage, hstatus]
  · intro hconn
    simp [ollamaRunModel, ollamaFetchStream, connectFailureMessage, hconn]

theorem C8_http_and_connection_errors_witness :
    (responseOk 500 = false ∧
      ollamaRunModel { disposed := false } "http://localhost:11434" "r"
        (FetchOutcome.httpResponse 500 "internal error" none) false =
        ([OllamaCall.error
          (Json.str "Ollama returned HTTP 500: internal error") "r"], true)) ∧
    (jsIncludes "connect ECONNREFUSED 127.0.0.1:11434" "ECONNREFUSED" = true ∧
      ollamaRunModel { disposed := false } "http://localhost:11434" "r"
        (FetchOutcome.netError (some "connect ECONNREFUSED 127.0.0.1:11434"))
        false =
        ([OllamaCall.error (Json.str
          "Ollama server not reachable at http://localhost:11434. Is Ollama running?")
          "r"], true)) := by
  refine ⟨⟨by decide, ?_⟩, ⟨by decide, ?_⟩⟩
  · exact (C8_http_and_connection_errors 500 "internal error" none "r"
      "http://localhost:11434" "").1 (by decide)
  · exact (C8_http_and_connection_errors 500 "" none "r" "http://localhost:11434"
      "connect ECONNREFUSED 127.0.0.1:11434").2 (by decide)

theorem runnerKillFn_disposed (s : RunnerState) :
    (runnerKillFn s).disposed = s.disposed := by
  unfold runnerKillFn
  cases s.current <;> rfl

theorem runnerFinish_disposed (s : RunnerState) (ex : Nat) (c : HandlerCall) :
    (runnerFinish s ex c).1.disposed = s.disposed := by
  unfold runnerFinish
  split <;> rfl

/-- C9: a disposed runner, subprocess-backed or HTTP, answers every
subsequent `run` with exactly one
`onError("Runner has been disposed", requestId)`, invokes no other handler,
starts no subprocess (child handle and timer untouched) or HTTP fetch, and
the disposed flag stays latched under every event. -/
theorem C9_disposed_runner_rejects_run (s : RunnerState) (o : OllamaState)
    (rid baseUrl : String) (outcome : FetchOutcome) (aborted : Bool) :
    (s.disposed = true →
      (runnerStep s (RunnerEvent.runCall rid)).2 =
        [(s.nextEx, HandlerCall.onError "Runner has been disposed" rid)] ∧
      (runnerStep s (RunnerEvent.runCall rid)).1.current = s.current ∧
      (runnerStep s (RunnerEvent.runCall rid)).1.timeoutOf = s.timeoutOf) ∧
    (∀ e, s.disposed = true → (runnerStep s e).1.disposed = true) ∧
    (o.disposed = true →
      ollamaRunModel o baseUrl rid outcome aborted =
        ([OllamaCall.error (Json.str "Runner has been disposed") rid],
         false)) := by
  refine ⟨?_, ?_, ?_⟩
  · intro hd
    refine ⟨?_, ?_, ?_⟩ <;> simp [runnerStep, hd]
  · intro e hd
    cases e with
    | runCall rid2 => simp [runnerStep, hd]
    | killCall => simpa [runnerStep, runnerKillFn_disposed] using hd
    | disposeCall => simp [runnerStep, runnerKillFn_disposed]
    | procExit ex exitCode signal =>
      simp only [runnerStep]
      by_cases hk : s.killed = true
      · simpa [hk] using hd
      · by_cases hz : exitCode = some 0 <;>
          simp [hk, hz, runnerFinish_disposed, hd]
    | procError ex message =>
      simpa [runnerStep, runnerFinish_disposed] using hd
    | stdoutLine ex content thinking => simpa [runnerStep] using hd
    | timeoutFire ex =>
      simp only [runnerStep]
      by_cases ha : s.timeoutOf = some ex
      · simp [ha, runnerFinish_disposed, runnerKillFn_disposed, hd]
      · simpa [ha] using hd
  · intro hd
    simp [ollamaRunModel, hd]

theorem C9_disposed_runner_rejects_run_witness :
    ((runnerTrace initialRunnerState [RunnerEvent.runCall "r1",
        RunnerEvent.disposeCall]).1.disposed = true ∧
     (runnerStep (runnerTrace initialRunnerState [RunnerEvent.runCall "r1",
        RunnerEvent.disposeCall]).1 (RunnerEvent.runCall "r2")).2 =
       [(1, HandlerCall.onError "Runner has been disposed" "r2")]) ∧
    (OllamaState.disposed { disposed := true } = true ∧
     ollamaRunModel { disposed := true } "http://localhost:11434" "r3"
        (FetchOutcome.httpResponse 200 "" (some [])) false =
       ([OllamaCall.error (Json.str "Runner has been disposed") "r3"],
        false)) := by
  refine ⟨⟨rfl, ?_⟩, ⟨rfl, ?_⟩⟩
  · exact ((C9_disposed_runner_rejects_run
      (runnerTrace initialRunnerState [RunnerEvent.runCall "r1",
        RunnerEvent.disposeCall]).1 { disposed := true } "r2"
      "http://localhost:11434" (FetchOutcome.httpResponse 200 "" (some []))
      false).1 rfl).1
  · exact (C9_disposed_runner_rejects_run initialRunnerState
      { disposed := true } "r3" "http://localhost:11434"
      (FetchOutcome.httpResponse 200 "" (some [])) false).2.2 rfl
